import Mathlib

/-!
Verification of the MDAnalysis analysis-backends module
(`package/MDAnalysis/analysis/backends.py`).

The module defines a base class `BackendBase` holding an `n_workers`
configuration value, validated at construction time against a dictionary of
`condition -> error message` fatal checks and a dictionary of
`condition -> warning message` soft checks, plus three concrete strategies:
`BackendSerial` (list comprehension), `BackendMultiprocessing`
(`multiprocessing.Pool.map`) and `BackendDask` (`dask.delayed` +
`dask.compute`).

Python values passed as `n_workers` are modelled by `PyVal` (integers,
booleans, floats and strings are the cases relevant to the validation logic:
the fatal check is `isinstance(n_workers, int) and n_workers > 0`, where a
Python `bool` is an instance of `int`, with `True == 1` and `False == 0`, and
the `and` short-circuits so non-numbers are never compared with `0`).

Python dictionaries keyed by the boolean *values* of the check conditions are
modelled by insertion-ordered association lists built with `dictInsert` /
`dictMerge`, which reproduce the key-collapsing behaviour of Python dict
literals and of the `|` merge operator: inserting an existing key overwrites
its value in place, a new key is appended.

The external execution engines (`multiprocessing.Pool.map`,
`dask.delayed` / `dask.compute`) are not part of this repository; they are
modelled by their documented semantics for a pure function: order-preserving
map over the input list, with the first worker exception propagated to the
caller. Whether the optional `dask` module is importable
(`MDAnalysis.lib.util.is_installed("dask")`) is modelled by an explicit
boolean environment parameter `daskInstalled`.
-/

/-- Model of the Python values that can be passed as `n_workers`. -/
inductive PyVal where
  | int (n : Int)
  | bool (b : Bool)
  | float (num den : Int)
  | str (s : String)
  deriving DecidableEq, Repr

/-- Python `isinstance(v, int)`: true for `int` and for `bool`
(Python booleans are a subclass of `int`). -/
def PyVal.isInstInt : PyVal → Bool
  | .int _ => true
  | .bool _ => true
  | _ => false

/-- The integer value of a `PyVal` that is an instance of `int`
(`True == 1`, `False == 0`); the value is irrelevant for other cases because
the `and` in the fatal check short-circuits on `isinstance`. -/
def PyVal.asInt : PyVal → Int
  | .int n => n
  | .bool b => if b then 1 else 0
  | _ => 0

/-- Python `repr`-like rendering used to build the f-string error message. -/
def PyVal.pyRepr : PyVal → String
  | .int n => toString n
  | .bool b => if b then "True" else "False"
  | .float num den => toString num ++ "." ++ toString den
  | .str s => "\x27" ++ s ++ "\x27"

/-- The fatal condition of `BackendBase._get_checks`:
`isinstance(self.n_workers, int) and self.n_workers > 0`. -/
def nWorkersOk (w : PyVal) : Bool :=
  w.isInstInt && decide (0 < w.asInt)

/-- Message of the base fatal check, from the f-string
`f"n_workers should be positive integer, got {self.n_workers=}"`. -/
def workerMsg (w : PyVal) : String :=
  "n_workers should be positive integer, got self.n_workers=" ++ w.pyRepr

/-- Message of the dask fatal check (two adjacent string literals in the
source, concatenated). -/
def daskMsg : String :=
  "module \x27dask\x27 should be installed:https://docs.dask.org/en/stable/install.html"

/-- A backend instance: the only state stored by `BackendBase.__init__` is
`self.n_workers`. -/
structure Backend where
  n_workers : PyVal
  deriving DecidableEq, Repr

/-- A Python dict with `Bool` keys, as an insertion-ordered association list
with unique keys. `dictInsert` models binding a key in a dict literal or
merge: an existing key has its value overwritten in place, a new key is
appended. -/
def dictInsert (d : List (Bool × String)) (k : Bool) (v : String) :
    List (Bool × String) :=
  if d.any (fun p => p.1 == k) then
    d.map (fun p => if p.1 == k then (p.1, v) else p)
  else d ++ [(k, v)]

/-- Python dict merge `d1 | d2`: keys of `d1` in order, then the new keys of
`d2`; for a key present in both, the value from `d2` wins. -/
def dictMerge (d₁ d₂ : List (Bool × String)) : List (Bool × String) :=
  d₂.foldl (fun acc kv => dictInsert acc kv.1 kv.2) d₁

/-- The first loop of `BackendBase._validate`: iterate over the checks dict
and raise `ValueError(msg)` at the first entry whose condition is falsy. -/
def runChecks : List (Bool × String) → Except String Unit
  | [] => .ok ()
  | (c, m) :: rest => if c then runChecks rest else .error m

/-- The second loop of `BackendBase._validate`: `warnings.warn(msg)` for each
entry whose condition is falsy; construction proceeds regardless. The list
collects the warning messages emitted, in order. -/
def collectWarnings (ws : List (Bool × String)) : List String :=
  (ws.filter (fun p => !p.1)).map (fun p => p.2)

namespace BackendBase

/-- The checks dict of `BackendBase._get_checks`: a single-entry dict literal
keyed by the boolean value of the fatal condition. -/
def get_checks (self : Backend) : List (Bool × String) :=
  [(nWorkersOk self.n_workers, workerMsg self.n_workers)]

/-- The warnings dict of `BackendBase._get_warnings`: empty. -/
def get_warnings (_self : Backend) : List (Bool × String) :=
  []

end BackendBase

/-- Generic model of `BackendBase.__init__` (store `n_workers`, run
`_validate`) for a subclass with the given effective checks and warnings
dicts: a `ValueError` carrying the first violated fatal message, or the
instance together with the soft warnings emitted. -/
def constructWith (checks warns : Backend → List (Bool × String)) (w : PyVal) :
    Except String (Backend × List String) :=
  let self : Backend := ⟨w⟩
  match runChecks (checks self) with
  | .error m => .error m
  | .ok _ => .ok (self, collectWarnings (warns self))

/-- Model of a Python expression evaluated in a never-invoked method: an
element of the set built by `BackendSerial._get_warnigns`. -/
inductive PyObj where
  | bool (b : Bool)
  | str (s : String)
  deriving DecidableEq, Repr

/-- Python comparison `self.n_workers > 1` for the values that can pass
validation (`int` and `bool`, with `True == 1`, `False == 0`). -/
def pyGtOne : PyVal → Bool
  | .int n => decide (1 < n)
  | .bool _ => false
  | _ => false

/-- List-with-exceptions evaluation of `[func(task) for task in computations]`
when `func` may raise: items are evaluated left to right and the first
exception propagates, discarding any results already produced. -/
def mapExcept (f : α → Except ε β) : List α → Except ε (List β)
  | [] => .ok []
  | x :: xs =>
    match f x with
    | .error e => .error e
    | .ok b =>
      match mapExcept f xs with
      | .error e => .error e
      | .ok bs => .ok (b :: bs)

/-- Boolean success test for an `Except` value. -/
def exceptIsOk : Except ε α → Bool
  | .ok _ => true
  | .error _ => false

namespace BackendSerial

/-- BackendSerial construction: `__init__` stores `n_workers` and runs
`_validate`. The class overrides neither `_get_checks` nor `_get_warnings`
(its warning override is under the misspelled name `_get_warnigns`), so the
base dicts govern validation. -/
def construct (w : PyVal) : Except String (Backend × List String) :=
  constructWith BackendBase.get_checks BackendBase.get_warnings w

/-- The misspelled override `BackendSerial._get_warnigns`, transcribed as
written in the source: it builds a two-element set `{self.n_workers > 1,
"n_workers is ignored when executing with backend='serial'"}` rather than a
condition-to-message dict, and — because `_validate` only ever calls
`_get_warnings` — it is never invoked. -/
def get_warnigns (self : Backend) : List PyObj :=
  [.bool (pyGtOne self.n_workers),
   .str "n_workers is ignored when executing with backend=\x27serial\x27"]

/-- BackendSerial.apply: `[func(task) for task in computations]`. -/
def apply (_self : Backend) (f : α → β) (computations : List α) : List β :=
  computations.map f

/-- BackendSerial.apply when `func` may raise: the comprehension evaluates
items left to right and propagates the first exception. -/
def applyExc (_self : Backend) (f : α → Except ε β) (computations : List α) :
    Except ε (List β) :=
  mapExcept f computations

end BackendSerial

namespace Pool

/-- Modelled external semantics of `multiprocessing.Pool(processes=n).map`
for a pure function: results in input order, independent of the number of
worker processes and of completion order. -/
def map (_n_processes : PyVal) (f : α → β) (xs : List α) : List β :=
  xs.map f

/-- Modelled external semantics of `multiprocessing.Pool.map` when the worker
function raises: the first worker exception is re-raised in the caller and no
result list is returned. -/
def mapExc (_n_processes : PyVal) (f : α → Except ε β) (xs : List α) :
    Except ε (List β) :=
  mapExcept f xs

end Pool

namespace BackendMultiprocessing

/-- BackendMultiprocessing construction: no overrides, so the base checks and
warnings dicts govern validation. -/
def construct (w : PyVal) : Except String (Backend × List String) :=
  constructWith BackendBase.get_checks BackendBase.get_warnings w

/-- BackendMultiprocessing.apply:
`with Pool(processes=self.n_workers) as pool: results = pool.map(func,
computations)`. -/
def apply (self : Backend) (f : α → β) (computations : List α) : List β :=
  Pool.map self.n_workers f computations

/-- BackendMultiprocessing.apply with a raising worker function. -/
def applyExc (self : Backend) (f : α → Except ε β) (computations : List α) :
    Except ε (List β) :=
  Pool.mapExc self.n_workers f computations

end BackendMultiprocessing

namespace Dask

/-- A `dask.delayed(func)(task)` object: the wrapped function and its
argument, evaluation deferred. -/
structure Delayed (α β : Type) where
  func : α → β
  arg : α

/-- Modelled external semantics of `dask.compute(tasks, scheduler="processes",
chunksize=1, n_workers=n)` on a list of delayed objects: a one-element tuple
whose single component is the list of evaluated results in input order. -/
def compute (tasks : List (Delayed α β)) (_n_workers : PyVal) :
    List (List β) :=
  [tasks.map (fun d => d.func d.arg)]

/-- A delayed object whose wrapped function may raise. -/
structure DelayedExc (α ε β : Type) where
  func : α → Except ε β
  arg : α

/-- Modelled external semantics of `dask.compute` when a task raises: the
engine propagates the failure to the caller instead of returning results. -/
def computeExc (tasks : List (DelayedExc α ε β)) (_n_workers : PyVal) :
    Except ε (List (List β)) :=
  match mapExcept (fun d => d.func d.arg) tasks with
  | .error e => .error e
  | .ok rs => .ok [rs]

end Dask

namespace BackendDask

/-- BackendDask._get_checks: `super()._get_checks() | {is_installed("dask"):
msg}` — a Python dict merge of two bool-keyed dicts. `daskInstalled` models
`is_installed("dask")` in the ambient environment. -/
def get_checks (daskInstalled : Bool) (self : Backend) :
    List (Bool × String) :=
  dictMerge (BackendBase.get_checks self) [(daskInstalled, daskMsg)]

/-- BackendDask construction in an environment where `is_installed("dask")`
evaluates to `daskInstalled`. -/
def construct (daskInstalled : Bool) (w : PyVal) :
    Except String (Backend × List String) :=
  constructWith (get_checks daskInstalled) BackendBase.get_warnings w

/-- BackendDask.apply: `computations = [delayed(func)(task) for task in
computations]; results = dask.compute(computations, scheduler="processes",
chunksize=1, n_workers=self.n_workers)[0]`. -/
def apply (self : Backend) (f : α → β) (computations : List α) : List β :=
  (Dask.compute (computations.map (fun task => Dask.Delayed.mk f task))
    self.n_workers).headD []

/-- BackendDask.apply with a raising worker function: the engine failure
propagates out of `dask.compute`. -/
def applyExc (self : Backend) (f : α → Except ε β) (computations : List α) :
    Except ε (List β) :=
  match Dask.computeExc
      (computations.map (fun task => Dask.DelayedExc.mk f task))
      self.n_workers with
  | .error e => .error e
  | .ok rs => .ok (rs.headD [])

end BackendDask

theorem mapExcept_error_of_mem (f : α → Except ε β) {x : α} {cs : List α}
    (hx : x ∈ cs) (he : exceptIsOk (f x) = false) :
    exceptIsOk (mapExcept f cs) = false := by
  induction cs with
  | nil => cases hx
  | cons c cs ih =>
    cases hx with
    | head =>
      cases hfc : f x with
      | error e => simp [mapExcept, hfc, exceptIsOk]
      | ok b => rw [hfc] at he; simp [exceptIsOk] at he
    | tail _ hx =>
      cases hfc : f c with
      | error e => simp [mapExcept, hfc, exceptIsOk]
      | ok b =>
        have htail := ih hx
        cases hm : mapExcept f cs with
        | error e => simp [mapExcept, hfc, hm, exceptIsOk]
        | ok bs => rw [hm] at htail; simp [exceptIsOk] at htail

theorem mapExcept_map (g : γ → Except ε β) (h : α → γ) (cs : List α) :
    mapExcept g (cs.map h) = mapExcept (fun x => g (h x)) cs := by
  induction cs with
  | nil => rfl
  | cons c cs ih => simp only [List.map_cons, mapExcept, ih]

/-- C1: BackendSerial.apply returns exactly the input-order image of the
computations list under `f`: the result has the input's length, and its entry
at every position `i` is `f` applied to the input entry at position `i`. -/
theorem serial_apply_pointwise (b : Backend) (f : α → β) (cs : List α)
    (i : Nat) (h : i < cs.length) :
    (BackendSerial.apply b f cs).length = cs.length ∧
    (BackendSerial.apply b f cs)[i]? = some (f cs[i]) := by
  constructor
  · simp [BackendSerial.apply]
  · simp [BackendSerial.apply, List.getElem?_map, List.getElem?_eq_getElem h]

/-- Witness for C1 at `f = square`, `cs = [1, 2, 3, 4, 5]`, `i = 2`. -/
theorem serial_apply_pointwise_witness :
    (BackendSerial.apply ⟨.int 1⟩ (fun n : Nat => n * n)
      [1, 2, 3, 4, 5]).length = 5 ∧
    (BackendSerial.apply ⟨.int 1⟩ (fun n : Nat => n * n)
      [1, 2, 3, 4, 5])[2]? = some 9 :=
  serial_apply_pointwise ⟨.int 1⟩ (fun n => n * n) [1, 2, 3, 4, 5] 2
    (by decide)

/-- C2: for a fixed pure function and fixed computations list, the serial,
multiprocessing and dask strategies return identical result lists, whatever
worker counts the three backend instances hold. -/
theorem strategies_equivalent (s m d : Backend) (f : α → β) (cs : List α) :
    BackendSerial.apply s f cs = BackendMultiprocessing.apply m f cs ∧
    BackendSerial.apply s f cs = BackendDask.apply d f cs := by
  refine ⟨rfl, ?_⟩
  simp [BackendSerial.apply, BackendDask.apply, Dask.compute, List.map_map,
    Function.comp]

/-- C3: constructing any strategy with n_workers 0, -1, or a non-integer
raises the construction-time fatal validation error, while constructing the
multiprocessing strategy with n_workers 1 succeeds with no fatal error. -/
theorem construct_rejects_bad_worker_count (w : PyVal) (daskInstalled : Bool)
    (h : w = .int 0 ∨ w = .int (-1) ∨ w.isInstInt = false) :
    exceptIsOk (BackendSerial.construct w) = false ∧
    exceptIsOk (BackendMultiprocessing.construct w) = false ∧
    exceptIsOk (BackendDask.construct daskInstalled w) = false ∧
    exceptIsOk (BackendMultiprocessing.construct (.int 1)) = true := by
  have hok : nWorkersOk w = false := by
    rcases h with h | h | h
    · subst h; decide
    · subst h; decide
    · simp [nWorkersOk, h]
  refine ⟨?_, ?_, ?_, rfl⟩
  · simp [BackendSerial.construct, constructWith, BackendBase.get_checks,
      runChecks, hok, exceptIsOk]
  · simp [BackendMultiprocessing.construct, constructWith,
      BackendBase.get_checks, runChecks, hok, exceptIsOk]
  · cases daskInstalled <;>
      simp [BackendDask.construct, constructWith, BackendDask.get_checks,
        BackendBase.get_checks, dictMerge, dictInsert, runChecks, hok,
        exceptIsOk]

/-- Witness for C3 at the non-integer value 2.5 with dask installed. -/
theorem construct_rejects_bad_worker_count_witness :
    (PyVal.float 2 5).isInstInt = false ∧
    (exceptIsOk (BackendSerial.construct (.float 2 5)) = false ∧
     exceptIsOk (BackendMultiprocessing.construct (.float 2 5)) = false ∧
     exceptIsOk (BackendDask.construct true (.float 2 5)) = false ∧
     exceptIsOk (BackendMultiprocessing.construct (.int 1)) = true) :=
  ⟨by decide, construct_rejects_bad_worker_count (.float 2 5) true
    (Or.inr (Or.inr (by decide)))⟩

/-- C4, evaluated at the failing input: constructing BackendSerial with
n_workers = 4 succeeds but emits no warning at all, although the intended
warning text exists in the source — inside the never-invoked misspelled
override `_get_warnigns`, which moreover builds a set instead of a
condition-to-message dict. -/
theorem serial_four_emits_no_warning :
    BackendSerial.construct (.int 4) = .ok (⟨.int 4⟩, []) ∧
    BackendSerial.get_warnigns ⟨.int 4⟩ =
      [.bool true,
       .str "n_workers is ignored when executing with backend=\x27serial\x27"] :=
  ⟨rfl, rfl⟩

/-- C5: in an environment without the dask module, BackendDask construction
fails immediately — for every n_workers value, so before any apply could be
attempted — with the error message that names the missing module and the
documentation URL where to obtain it. -/
theorem dask_missing_fails_construction (w : PyVal) :
    BackendDask.construct false w = .error daskMsg ∧
    "dask".toList <:+: daskMsg.toList ∧
    "https://docs.dask.org/en/stable/install.html".toList <:+:
      daskMsg.toList := by
  refine ⟨?_, by decide, by decide⟩
  cases hb : nWorkersOk w <;>
    simp [BackendDask.construct, constructWith, BackendDask.get_checks,
      BackendBase.get_checks, dictMerge, dictInsert, runChecks, hb]

/-- C6: every successfully constructed backend satisfies the invariant that
its n_workers is an integer (in Python's sense) and positive; when a fatal
check is violated, construction returns an error instead of an instance, so
no apply call is reachable. -/
theorem constructed_backend_valid (w : PyVal) (daskInstalled : Bool) :
    (∀ r, BackendSerial.construct w = .ok r →
      w.isInstInt = true ∧ 0 < w.asInt) ∧
    (∀ r, BackendMultiprocessing.construct w = .ok r →
      w.isInstInt = true ∧ 0 < w.asInt) ∧
    (∀ r, BackendDask.construct daskInstalled w = .ok r →
      w.isInstInt = true ∧ 0 < w.asInt) := by
  cases hb : nWorkersOk w
  · refine ⟨fun r h => ?_, fun r h => ?_, fun r h => ?_⟩
    · simp [BackendSerial.construct, constructWith, BackendBase.get_checks,
        runChecks, hb] at h
    · simp [BackendMultiprocessing.construct, constructWith,
        BackendBase.get_checks, runChecks, hb] at h
    · cases daskInstalled <;>
        simp [BackendDask.construct, constructWith, BackendDask.get_checks,
          BackendBase.get_checks, dictMerge, dictInsert, runChecks, hb] at h
  · have hv : w.isInstInt = true ∧ 0 < w.asInt := by
      simpa [nWorkersOk, Bool.and_eq_true, decide_eq_true_iff] using hb
    exact ⟨fun _ _ => hv, fun _ _ => hv, fun _ _ => hv⟩

/-- Witness for C6: instantiated at n_workers = 2 with dask installed. -/
theorem constructed_backend_valid_witness :
    (PyVal.int 2).isInstInt = true ∧ 0 < (PyVal.int 2).asInt :=
  (constructed_backend_valid (.int 2) true).1 (⟨.int 2⟩, []) rfl

/-- C7: if the worker function raises on some computation item, every
strategy's apply propagates an exception to the caller instead of returning a
partial or placeholder-bearing result list. -/
theorem apply_propagates_exception (s m d : Backend) (f : α → Except ε β)
    (cs : List α) (x : α) (hx : x ∈ cs)
    (he : exceptIsOk (f x) = false) :
    exceptIsOk (BackendSerial.applyExc s f cs) = false ∧
    exceptIsOk (BackendMultiprocessing.applyExc m f cs) = false ∧
    exceptIsOk (BackendDask.applyExc d f cs) = false := by
  have hser := mapExcept_error_of_mem f hx he
  refine ⟨hser, hser, ?_⟩
  cases hm : mapExcept f cs with
  | ok bs => rw [hm] at hser; simp [exceptIsOk] at hser
  | error e =>
    simp [BackendDask.applyExc, Dask.computeExc, mapExcept_map, hm,
      exceptIsOk]

/-- Witness for C7: a function raising on item 2 of [1, 2, 3]. -/
theorem apply_propagates_exception_witness :
    exceptIsOk (BackendSerial.applyExc ⟨.int 1⟩
      (fun n : Nat => if n = 2 then Except.error "boom" else Except.ok n)
      [1, 2, 3]) = false ∧
    exceptIsOk (BackendMultiprocessing.applyExc ⟨.int 2⟩
      (fun n : Nat => if n = 2 then Except.error "boom" else Except.ok n)
      [1, 2, 3]) = false ∧
    exceptIsOk (BackendDask.applyExc ⟨.int 2⟩
      (fun n : Nat => if n = 2 then Except.error "boom" else Except.ok n)
      [1, 2, 3]) = false :=
  apply_propagates_exception ⟨.int 1⟩ ⟨.int 2⟩ ⟨.int 2⟩
    (fun n : Nat => if n = 2 then Except.error "boom" else Except.ok n)
    [1, 2, 3] 2 (by decide) rfl

/-- C8: with dask absent and an invalid n_workers, the bool-keyed dict merge
`base_checks | checks` collapses both violated conditions onto the single key
`false`, keeping only the dask-installation message, so construction raises
exactly that one error and the worker-count message is never reported. -/
theorem dask_checks_collapse (w : PyVal) (h : nWorkersOk w = false) :
    BackendDask.get_checks false ⟨w⟩ = [(false, daskMsg)] ∧
    BackendDask.construct false w = .error daskMsg := by
  have hc : BackendDask.get_checks false ⟨w⟩ = [(false, daskMsg)] := by
    simp [BackendDask.get_checks, BackendBase.get_checks, dictMerge,
      dictInsert, h]
  refine ⟨hc, ?_⟩
  simp [BackendDask.construct, constructWith, hc, runChecks]

/-- Witness for C8 at n_workers = 0 with dask absent. -/
theorem dask_checks_collapse_witness :
    nWorkersOk (.int 0) = false ∧
    BackendDask.get_checks false ⟨.int 0⟩ = [(false, daskMsg)] ∧
    BackendDask.construct false (.int 0) = .error daskMsg :=
  ⟨by decide, (dask_checks_collapse (.int 0) (by decide)).1,
    (dask_checks_collapse (.int 0) (by decide)).2⟩

/-- C9: for every n_workers passing the fatal check — in particular every
integer greater than 1 — BackendSerial constructs successfully and emits no
warning at all: `_validate` consults the inherited `_get_warnings`, which is
empty, and never the misspelled `_get_warnigns` override. -/
theorem serial_construct_no_warning (w : PyVal) (h : nWorkersOk w = true) :
    BackendSerial.construct w = .ok (⟨w⟩, []) ∧
    collectWarnings (BackendBase.get_warnings ⟨w⟩) = [] := by
  refine ⟨?_, rfl⟩
  simp [BackendSerial.construct, constructWith, BackendBase.get_checks,
    runChecks, h, BackendBase.get_warnings, collectWarnings]

/-- Witness for C9 at n_workers = 5. -/
theorem serial_construct_no_warning_witness :
    BackendSerial.construct (.int 5) = .ok (⟨.int 5⟩, []) ∧
    collectWarnings (BackendBase.get_warnings ⟨.int 5⟩) = [] :=
  serial_construct_no_warning (.int 5) (by decide)

/-- C10: the Python boolean True passes the fatal check — `isinstance(True,
int)` holds and `True == 1 > 0` — so every strategy constructs successfully
with n_workers = True, though the contract demands a positive integer. -/
theorem bool_true_accepted :
    nWorkersOk (.bool true) = true ∧
    BackendSerial.construct (.bool true) = .ok (⟨.bool true⟩, []) ∧
    BackendMultiprocessing.construct (.bool true) = .ok (⟨.bool true⟩, []) ∧
    BackendDask.construct true (.bool true) = .ok (⟨.bool true⟩, []) :=
  ⟨rfl, rfl, rfl, rfl⟩
